import Mathlib

/-
Shallow embedding of the comparable-valuation program
(src/Comparable-valuation.py).  Numbers are modelled as rationals,
nullable fields as Option, and operations that can raise a Python
exception as Option/Except results.  Provider calls and console input
are passed in as explicit parameters.
-/

/-- Stopword list from the source (the STOPWORDS set). -/
def STOPWORDS : List String :=
  ["the", "and", "a", "in", "of", "for", "with", "on", "at", "to", "by", "from", "as",
   "that", "which", "this", "these", "those", "it", "is", "are", "be", "has", "have",
   "was", "were", "been", "being", "its", "an", "or", "but", "also", "about", "under",
   "over", "through", "throughout", "using", "utilizing", "their", "other"]

/-- Characters that survive the cleanup step of extract_keywords
(re.sub removes everything that is not an ASCII letter or whitespace). -/
def keepAlphaWs (c : Char) : Bool := c.isAlpha || c.isWhitespace

/-- Helper for whitespace splitting: cur holds the characters of the word
being built, in reverse order. -/
def splitWSAux (cur : List Char) : List Char → List (List Char)
  | [] => if cur.isEmpty then [] else [cur.reverse]
  | c :: cs =>
    if c.isWhitespace then
      if cur.isEmpty then splitWSAux [] cs else cur.reverse :: splitWSAux [] cs
    else splitWSAux (c :: cur) cs

/-- Python str.split() with no argument: split on whitespace runs,
dropping empty pieces. -/
def splitWS (l : List Char) : List (List Char) := splitWSAux [] l

/-- Python str.lower, modelled on the underlying character list
(the cleaned text is ASCII letters and whitespace only). -/
def pyLower (s : String) : String := ⟨s.data.map Char.toLower⟩

/-- Tokenisation pipeline of extract_keywords: cleanup, lower(), split(). -/
def pyTokens (s : String) : List String :=
  (splitWS ((s.data.filter keepAlphaWs).map Char.toLower)).map (fun w => ⟨w⟩)

/-- Per-token filter of extract_keywords: not a stopword, not equal to the
lowercased company name, and longer than 3 characters. -/
def keepWord (companyName w : String) : Bool :=
  !(STOPWORDS.contains w) && !(w == pyLower companyName) && decide (w.length > 3)

/-- extract_keywords(description, company_name) from the source. -/
def extract_keywords (description companyName : String) : List String :=
  (pyTokens description).filter (keepWord companyName)

/-- The token filter of extract_keywords without the company-name clause;
used to state when that clause is vacuous. -/
def keepShort (w : String) : Bool :=
  !(STOPWORDS.contains w) && decide (w.length > 3)

/-- keyword_match_percentage from the source.  none models the
ZeroDivisionError raised when the target keyword list is empty while the
peer keyword list is not; otherwise the value is
len(set(target).intersection(peer)) / len(target) * 100, and an empty
peer list short-circuits to 0. -/
def keyword_match_percentage (targetKeywords peerKeywords : List String) : Option ℚ :=
  if peerKeywords.isEmpty then some 0
  else if targetKeywords.length = 0 then none
  else some ((((targetKeywords.dedup.filter peerKeywords.contains).length : ℚ)
      / (targetKeywords.length : ℚ)) * 100)

/-- CompanyMetrics: the dict built by fetch_metrics_and_description;
every field of the provider response may be missing. -/
structure CompanyMetrics where
  price : Option ℚ
  earnings : Option ℚ
  ebitda : Option ℚ
  revenue : Option ℚ
  marketCap : Option ℚ
  sharesOutstanding : Option ℚ
  industry : Option String
  description : Option String
  companyName : Option String
  deriving DecidableEq

/-- Python truthiness of an optional number: None and 0 are falsy. -/
def truthy : Option ℚ → Bool
  | none => false
  | some x => decide (x ≠ 0)

/-- Keyword-band test shared by both acceptance branches of the screener. -/
def bandOK (lo hi m : ℚ) : Bool := decide (lo ≤ m) && decide (m ≤ hi)

/-- Per-peer acceptance decision of find_comparables: the primary branch
needs a truthy peer MarketCap, a relative deviation from the target
MarketCap within tolerance, and the match percentage in band; the
fallback branch needs the band alone.  error models the exception raised
when the peer MarketCap is truthy while the target MarketCap is None
(TypeError) or zero (ZeroDivisionError). -/
def acceptPeer (peerMC targetMC : Option ℚ) (m tol lo hi : ℚ) : Except Unit Bool :=
  match peerMC with
  | none => Except.ok (bandOK lo hi m)
  | some p =>
    if p = 0 then Except.ok (bandOK lo hi m)
    else
      match targetMC with
      | none => Except.error ()
      | some t =>
        if t = 0 then Except.error ()
        else Except.ok ((decide (|p - t| / t ≤ tol) && bandOK lo hi m) || bandOK lo hi m)

/-- Guard modelling a Python operation that raises when its operand is None. -/
def reqField : Option α → Except Unit α
  | none => Except.error ()
  | some a => Except.ok a

/-- Loop of find_comparables over the peer list: fetch the peer, extract
its keywords, compute the match percentage against the target keywords,
and apply the acceptance rule.  Any raised exception aborts the loop. -/
def screenPeers (fetch : String → Except Unit CompanyMetrics)
    (targetKeywords : List String) (targetMC : Option ℚ)
    (tol lo hi : ℚ) : List String → Except Unit (List String)
  | [] => Except.ok []
  | p :: rest => do
    let pm ← fetch p
    let pd ← reqField pm.description
    let pn ← reqField pm.companyName
    let m ← reqField (keyword_match_percentage targetKeywords (extract_keywords pd pn))
    let acc ← acceptPeer pm.marketCap targetMC m tol lo hi
    let others ← screenPeers fetch targetKeywords targetMC tol lo hi rest
    Except.ok (if acc then p :: others else others)

/-- find_comparables from the source, with the provider fetch passed in as
a function.  An uncaught exception anywhere (a failed peer fetch, a None
description or company name, an empty target keyword list, a bad target
MarketCap) makes the whole call an error. -/
def find_comparables (fetch : String → Except Unit CompanyMetrics)
    (targetMetrics : CompanyMetrics) (peers : List String)
    (tol lo hi : ℚ) : Except Unit (List String) := do
  let d ← reqField targetMetrics.description
  let n ← reqField targetMetrics.companyName
  screenPeers fetch (extract_keywords d n) targetMetrics.marketCap tol lo hi peers

/-- P/E sample contribution of one comparable: requires a truthy Price, a
truthy Earnings and Earnings > 0; the ratio is Price / Earnings. -/
def peContrib (met : CompanyMetrics) : Option ℚ :=
  if truthy met.price && truthy met.earnings && decide (0 < met.earnings.getD 0) then
    some (met.price.getD 0 / met.earnings.getD 0)
  else none

/-- EV/EBITDA sample contribution of one comparable: requires a truthy
Ebitda, Ebitda > 0 and a truthy MarketCap; enterprise value is simplified
to MarketCap. -/
def evContrib (met : CompanyMetrics) : Option ℚ :=
  if truthy met.ebitda && decide (0 < met.ebitda.getD 0) && truthy met.marketCap then
    some (met.marketCap.getD 0 / met.ebitda.getD 0)
  else none

/-- The P/E MultipleSample collected from the comparables, in input order. -/
def peRatios (comps : List CompanyMetrics) : List ℚ := comps.filterMap peContrib

/-- The EV/EBITDA MultipleSample collected from the comparables. -/
def evEbitdaRatios (comps : List CompanyMetrics) : List ℚ := comps.filterMap evContrib

/-- pandas Series.median: sort the sample; an odd count takes the middle
element, an even count averages the two middle elements.  The source
leaves the median None when the sample is empty. -/
def median (xs : List ℚ) : Option ℚ :=
  if xs.isEmpty then none
  else
    let s := List.insertionSort (· ≤ ·) xs
    if xs.length % 2 = 1 then some (s.getD (xs.length / 2) 0)
    else some ((s.getD (xs.length / 2 - 1) 0 + s.getD (xs.length / 2) 0) / 2)

/-- Result of comparable_company_analysis: the EV/EBITDA entry exists only
when it was computed; the P/E entry is either a number or the sentinel
string "N/A (Negative Earnings)", modelled as none. -/
structure FairValues where
  evEbitda : Option ℚ
  pe : Option ℚ
  deriving DecidableEq

/-- comparable_company_analysis from the source, with the per-ticker
provider fetches abstracted into the already-fetched target metrics and
the list of comparable metrics. -/
def comparable_company_analysis (target : CompanyMetrics)
    (comps : List CompanyMetrics) : FairValues :=
  let medianPe := median (peRatios comps)
  let medianEv := median (evEbitdaRatios comps)
  let ev : Option ℚ :=
    if truthy target.ebitda && truthy medianEv && truthy target.sharesOutstanding then
      some (medianEv.getD 0 * target.ebitda.getD 0 / target.sharesOutstanding.getD 0)
    else none
  let pe : Option ℚ :=
    if truthy target.earnings && decide (0 < target.earnings.getD 0) &&
        truthy medianPe && truthy target.sharesOutstanding then
      some (medianPe.getD 0 * target.earnings.getD 0 / target.sharesOutstanding.getD 0)
    else none
  ⟨ev, pe⟩

/-- One row of the results store: columns {Stock, Metric, Value}, every
cell possibly empty. -/
structure ResultRow where
  stock : Option String
  metric : Option String
  value : Option String
  deriving DecidableEq

/-- dropna(how='all') drops exactly the rows whose cells are all empty. -/
def rowEmpty (r : ResultRow) : Bool :=
  r.stock.isNone && r.metric.isNone && r.value.isNone

/-- append_to_excel from the source: load the existing rows when the store
exists (none models a missing file), drop the fully empty rows from the
new batch, append the batch, and rewrite; the rewritten store contents
are returned. -/
def append_to_excel (existing : Option (List ResultRow))
    (newData : List ResultRow) : List ResultRow :=
  (match existing with
   | some df => df
   | none => []) ++ newData.filter (fun r => !(rowEmpty r))

/-- Outcome of the provider lookup inside search_stock: a shortName was
resolved, no shortName was found, or the lookup raised (caught there). -/
inductive LookupResult where
  | found
  | notFound
  | failure
  deriving DecidableEq

/-- Python str.strip(): drop leading and trailing whitespace. -/
def pyStrip (s : String) : String :=
  ⟨((s.data.dropWhile Char.isWhitespace).reverse.dropWhile Char.isWhitespace).reverse⟩

/-- search_stock from the source: the ticker is returned only when the
lookup resolves a shortName and the stripped, lowercased confirmation
input is exactly "y"; every other path returns None. -/
def search_stock (lookup : LookupResult) (response stockInput : String) : Option String :=
  match lookup with
  | LookupResult.found =>
    if pyLower (pyStrip response) = "y" then some stockInput else none
  | _ => none

/-- Externally observable steps of main, in program order. -/
inductive Effect where
  | fetchTarget : Option String → Effect
  | screenStep : List String → Effect
  | runValuation : Effect
  | printNoComparables : Effect
  | printNoValidStock : Effect
  | appendResults : Effect
  deriving DecidableEq

/-- Hardcoded peer list of main. -/
def peer_companies : List String := ["ADM", "BG", "INGR", "LANC", "HRL"]

/-- Control flow of main as the sequence of externally observable steps.
The screener outcome (whether find_comparables returned a non-empty
list) is abstracted as a boolean since it depends only on provider data.
Faithful to the source order: the target-metrics fetch and the peer
screening run before the empty-comparables check, which runs before the
target_ticker check. -/
def mainEffects (lookup : LookupResult) (response stockInput : String)
    (foundComparables : Bool) : List Effect :=
  let target := search_stock lookup response stockInput
  Effect.fetchTarget target :: Effect.screenStep peer_companies ::
    (if !foundComparables then [Effect.printNoComparables]
     else if target.isSome then [Effect.runValuation, Effect.appendResults]
     else [Effect.printNoValidStock])

/-- Replace the Ebitda field of a metrics record. -/
def setEbitda (t : CompanyMetrics) (v : Option ℚ) : CompanyMetrics :=
  ⟨t.price, t.earnings, v, t.revenue, t.marketCap, t.sharesOutstanding,
   t.industry, t.description, t.companyName⟩

/-- Replace the Price field of a metrics record. -/
def setPrice (t : CompanyMetrics) (v : Option ℚ) : CompanyMetrics :=
  ⟨v, t.earnings, t.ebitda, t.revenue, t.marketCap, t.sharesOutstanding,
   t.industry, t.description, t.companyName⟩

/-- Replace the MarketCap field of a metrics record. -/
def setMarketCap (t : CompanyMetrics) (v : Option ℚ) : CompanyMetrics :=
  ⟨t.price, t.earnings, t.ebitda, t.revenue, v, t.sharesOutstanding,
   t.industry, t.description, t.companyName⟩

/-- Metrics record with every field absent, a base for concrete examples. -/
def emptyMetrics : CompanyMetrics :=
  ⟨none, none, none, none, none, none, none, none, none⟩

/-- Comparable metrics whose only contribution is an EV/EBITDA ratio of 8. -/
def compEv8 : CompanyMetrics :=
  ⟨none, none, some 1, none, some 8, none, none, none, none⟩

/-- Comparable with a negative P/E ratio of -1 (price -1, earnings 1). -/
def compNegPe : CompanyMetrics :=
  ⟨some (-1), some 1, none, none, none, none, none, none, none⟩

/-- Comparable with a P/E ratio of 1 (price 1, earnings 1). -/
def compPosPe : CompanyMetrics :=
  ⟨some 1, some 1, none, none, none, none, none, none, none⟩

/-- Target with Ebitda 1000000 and SharesOutstanding 500000. -/
def targetEv : CompanyMetrics :=
  ⟨none, none, some 1000000, none, none, some 500000, none, none, none⟩

/-- Target with Ebitda present but equal to 0 and SharesOutstanding 500000. -/
def targetZeroEbitda : CompanyMetrics :=
  ⟨none, none, some 0, none, none, some 500000, none, none, none⟩

/-- Target with positive Earnings 10 and SharesOutstanding 5. -/
def targetPe : CompanyMetrics :=
  ⟨none, some 10, none, none, none, some 5, none, none, none⟩

/-- Target with negative Earnings -5 and SharesOutstanding 5. -/
def targetNegEarnings : CompanyMetrics :=
  ⟨none, some (-5), none, none, none, some 5, none, none, none⟩

/-- Target with negative Ebitda -2 and SharesOutstanding 4. -/
def targetNegEbitda : CompanyMetrics :=
  ⟨none, none, some (-2), none, none, some 4, none, none, none⟩

/-- Comparable whose Price is present but zero. -/
def compPriceZero : CompanyMetrics :=
  ⟨some 0, some 3, none, none, none, none, none, none, none⟩

/-- Concrete target for screening examples. -/
def targetA : CompanyMetrics :=
  ⟨some 50, some 5, some 10, none, some 1000, some 100, none,
   some "packaged foods and beverages", some "TargetCo"⟩

/-- Concrete fetchable peer for screening examples. -/
def peerB : CompanyMetrics :=
  ⟨some 40, some 4, some 8, none, some 900, some 90, none,
   some "packaged foods and beverages maker", some "PeerCo"⟩

/-- Every word produced by the whitespace splitter is whitespace-free. -/
lemma splitWSAux_no_ws : ∀ (l cur : List Char),
    (∀ c ∈ cur, c.isWhitespace = false) →
    ∀ w ∈ splitWSAux cur l, ∀ c ∈ w, c.isWhitespace = false := by
  intro l
  induction l with
  | nil =>
    intro cur hcur w hw c hc
    simp only [splitWSAux] at hw
    split at hw
    · simp at hw
    · simp at hw
      subst hw
      exact hcur c (by simpa using hc)
  | cons a as ih =>
    intro cur hcur w hw c hc
    simp only [splitWSAux] at hw
    by_cases ha : a.isWhitespace
    · rw [if_pos ha] at hw
      split at hw
      · exact ih [] (by simp) w hw c hc
      · rcases List.mem_cons.mp hw with h | h
        · subst h
          exact hcur c (by simpa using hc)
        · exact ih [] (by simp) w h c hc
    · rw [if_neg ha] at hw
      refine ih (a :: cur) ?_ w hw c hc
      intro d hd
      rcases List.mem_cons.mp hd with h | h
      · subst h
        simpa using ha
      · exact hcur d h

/-- Every token of the extraction pipeline is whitespace-free. -/
lemma pyTokens_no_ws (s w : String) (hw : w ∈ pyTokens s) :
    ∀ c ∈ w.data, c.isWhitespace = false := by
  rcases List.mem_map.mp hw with ⟨l, hl, rfl⟩
  intro c hc
  exact splitWSAux_no_ws _ [] (by simp) l hl c hc

/-- Claim C1: for a screener run with a usable (non-null, non-zero) target
MarketCap, the two-branch acceptance rule is equivalent to the keyword
band alone, for every peer MarketCap, match percentage, tolerance and
band; a peer at 15% match with a 10x market cap is accepted and a peer at
25% match with an identical market cap is rejected. -/
theorem screener_band_equiv (t : ℚ) (ht : t ≠ 0) :
    (∀ (pmc : Option ℚ) (m tol lo hi : ℚ),
        acceptPeer pmc (some t) m tol lo hi = Except.ok (bandOK lo hi m)) ∧
    acceptPeer (some (10 * t)) (some t) 15 (3 / 4) 11 19 = Except.ok true ∧
    acceptPeer (some t) (some t) 25 (3 / 4) 11 19 = Except.ok false := by
  have key : ∀ (pmc : Option ℚ) (m tol lo hi : ℚ),
      acceptPeer pmc (some t) m tol lo hi = Except.ok (bandOK lo hi m) := by
    intro pmc m tol lo hi
    cases pmc with
    | none => rfl
    | some p =>
      by_cases hp : p = 0
      · simp only [acceptPeer, if_pos hp]
      · simp only [acceptPeer, if_neg hp, if_neg ht]
        congr 1
        cases bandOK lo hi m <;> simp
  refine ⟨key, ?_, ?_⟩
  · rw [key]
    norm_num [bandOK]
  · rw [key]
    norm_num [bandOK]

/-- Witness for C1 at target MarketCap 1000. -/
theorem screener_band_equiv_applied :
    acceptPeer (some 250) (some 1000) 15 (3 / 4) 11 19 = Except.ok (bandOK 11 19 15) ∧
    acceptPeer (some (10 * 1000)) (some 1000) 15 (3 / 4) 11 19 = Except.ok true :=
  ⟨(screener_band_equiv 1000 (by norm_num)).1 (some 250) 15 (3 / 4) 11 19,
   (screener_band_equiv 1000 (by norm_num)).2.1⟩

/-- Counterexample to C2: with the multi-word company name "Acme Corp",
the tokens "acme" and "corp" survive keyword extraction even though they
are words of the company name. -/
theorem extract_name_words_survive :
    "acme" ∈ extract_keywords "acme makes widgets corp" "Acme Corp" ∧
    "corp" ∈ extract_keywords "acme makes widgets corp" "Acme Corp" := by decide

/-- Claim C2 (amended): the name filter removes exactly the tokens equal
to the whole lowercased company name; for a name whose lowercased form
contains whitespace (any multi-word name) the clause is vacuous, so
extraction keeps every non-stopword token longer than 3 characters,
including the individual words of the company name. -/
theorem extract_multiword_name_vacuous (D name : String)
    (h : (pyLower name).data.any Char.isWhitespace = true) :
    extract_keywords D name = (pyTokens D).filter keepShort := by
  unfold extract_keywords
  apply List.filter_congr
  intro w hw
  unfold keepWord keepShort
  have hne : (w == pyLower name) = false := by
    apply beq_eq_false_iff_ne.mpr
    intro heq
    rcases List.any_eq_true.mp h with ⟨c, hc, hws⟩
    have hfree : c.isWhitespace = false := pyTokens_no_ws D w hw c (by rw [heq]; exact hc)
    rw [hfree] at hws
    exact absurd hws (by decide)
  rw [hne]
  simp

/-- Witness for C2's amended claim at the name "Acme Corp". -/
theorem extract_multiword_name_vacuous_applied :
    extract_keywords "acme makes widgets corp" "Acme Corp" =
      (pyTokens "acme makes widgets corp").filter keepShort :=
  extract_multiword_name_vacuous "acme makes widgets corp" "Acme Corp" (by decide)

/-- Counterexample to C3: with an empty target keyword list and a
non-empty peer keyword list the source raises ZeroDivisionError
(modelled as none) instead of yielding a value in [0, 100]. -/
theorem match_percentage_empty_target_fails :
    keyword_match_percentage [] ["data"] = none := rfl

/-- Claim C3 (amended): for a non-empty target keyword list the match
percentage is defined, lies in [0, 100], equals 0 for an empty peer list
and otherwise equals the distinct-overlap count divided by the target
list length times 100; the two example evaluations of the claim hold. -/
theorem match_percentage_bounds (t p : List String) (h : t ≠ []) :
    (∃ q, keyword_match_percentage t p = some q ∧ 0 ≤ q ∧ q ≤ 100 ∧
        (p = [] → q = 0) ∧
        (p ≠ [] →
          q = ((t.dedup.filter p.contains).length : ℚ) / (t.length : ℚ) * 100)) ∧
    keyword_match_percentage ["a", "b", "c", "d"] ["a", "b"] = some 50 ∧
    keyword_match_percentage ["a", "b", "c", "d"] [] = some 0 := by
  refine ⟨?_, ?_, rfl⟩
  · by_cases hp : p = []
    · subst hp
      exact ⟨0, rfl, le_refl 0, by norm_num, fun _ => rfl, fun hne => absurd rfl hne⟩
    · have hlen : 0 < t.length := List.length_pos.mpr h
      obtain ⟨a, as, rfl⟩ := List.exists_cons_of_ne_nil hp
      refine ⟨((t.dedup.filter (a :: as).contains).length : ℚ) / (t.length : ℚ) * 100,
        ?_, ?_, ?_, fun he => absurd he hp, fun _ => rfl⟩
      · unfold keyword_match_percentage
        rw [if_neg (by simp), if_neg (by omega)]
      · positivity
      · have hk : (t.dedup.filter (a :: as).contains).length ≤ t.length :=
          le_trans (List.length_filter_le _ _) (List.Sublist.length_le t.dedup_sublist)
        have h1 : ((t.dedup.filter (a :: as).contains).length : ℚ) / (t.length : ℚ) ≤ 1 := by
          rw [div_le_one (by exact_mod_cast hlen)]
          exact_mod_cast hk
        calc ((t.dedup.filter (a :: as).contains).length : ℚ) / (t.length : ℚ) * 100
            ≤ 1 * 100 := mul_le_mul_of_nonneg_right h1 (by norm_num)
          _ = 100 := by norm_num
  · norm_num [keyword_match_percentage,
      (by decide : (List.filter (["a", "b"].contains) (["a", "b", "c", "d"].dedup)).length = 2)]

/-- Witness for C3's amended claim at a concrete non-empty target. -/
theorem match_percentage_bounds_applied :
    (∃ q, keyword_match_percentage ["alpha", "beta"] ["beta"] = some q ∧ 0 ≤ q ∧ q ≤ 100 ∧
        (["beta"] = ([] : List String) → q = 0) ∧
        ((["beta"] : List String) ≠ [] →
          q = (((["alpha", "beta"] : List String).dedup.filter
                  (["beta"] : List String).contains).length : ℚ) /
              ((["alpha", "beta"] : List String).length : ℚ) * 100)) ∧
    keyword_match_percentage ["a", "b", "c", "d"] ["a", "b"] = some 50 ∧
    keyword_match_percentage ["a", "b", "c", "d"] [] = some 0 :=
  match_percentage_bounds ["alpha", "beta"] ["beta"] (by decide)

/-- Counterexample to C4: a provider failure on the first peer aborts the
whole screening run with an error even though the second peer is
fetchable, instead of excluding the failed peer and returning the rest. -/
theorem peer_fetch_failure_aborts_concrete :
    find_comparables (fun s => if s = "ADM" then Except.error () else Except.ok peerB)
      targetA ["ADM", "BG"] (3 / 4) 11 19 = Except.error () := rfl

/-- Claim C4 (amended): a provider failure while fetching a peer's metrics
is not caught: it propagates out of find_comparables, aborting the whole
screening with no partial results, whatever the remaining peers are. -/
theorem peer_fetch_failure_aborts (fetch : String → Except Unit CompanyMetrics)
    (tm : CompanyMetrics) (d n : String) (hd : tm.description = some d)
    (hn : tm.companyName = some n) (p : String) (rest : List String)
    (hf : fetch p = Except.error ()) (tol lo hi : ℚ) :
    find_comparables fetch tm (p :: rest) tol lo hi = Except.error () := by
  unfold find_comparables
  rw [hd, hn]
  show screenPeers fetch (extract_keywords d n) tm.marketCap tol lo hi (p :: rest) =
    Except.error ()
  unfold screenPeers
  rw [hf]
  rfl

/-- Witness for C4's amended claim with a concrete always-failing fetch. -/
theorem peer_fetch_failure_aborts_applied :
    find_comparables (fun _ => Except.error ()) targetA ["ADM"] (3 / 4) 11 19 =
      Except.error () :=
  peer_fetch_failure_aborts (fun _ => Except.error ()) targetA
    "packaged foods and beverages" "TargetCo" rfl rfl "ADM" [] rfl (3 / 4) 11 19

/-- Claim C5 (code behaviour at the failing input): when the user declines
the resolved ticker, search_stock does return None, but main still
performs the target-metrics fetch (with ticker None) and the peer
screening before the target_ticker check; the "no valid stock selected"
message is reached only when the screener found comparables, and the
valuation step indeed never runs. -/
theorem declined_confirmation_trace :
    search_stock LookupResult.found "n" "KO" = none ∧
    Effect.fetchTarget none ∈ mainEffects LookupResult.found "n" "KO" false ∧
    Effect.screenStep peer_companies ∈ mainEffects LookupResult.found "n" "KO" false ∧
    Effect.printNoValidStock ∉ mainEffects LookupResult.found "n" "KO" false ∧
    Effect.printNoValidStock ∈ mainEffects LookupResult.found "n" "KO" true ∧
    Effect.runValuation ∉ mainEffects LookupResult.found "n" "KO" true := by decide

/-- Projection of the EV/EBITDA branch of comparable_company_analysis. -/
lemma analysis_evEbitda (target : CompanyMetrics) (comps : List CompanyMetrics) :
    (comparable_company_analysis target comps).evEbitda =
      if truthy target.ebitda && truthy (median (evEbitdaRatios comps)) &&
          truthy target.sharesOutstanding then
        some ((median (evEbitdaRatios comps)).getD 0 * target.ebitda.getD 0 /
          target.sharesOutstanding.getD 0)
      else none := rfl

/-- Projection of the P/E branch of comparable_company_analysis. -/
lemma analysis_pe (target : CompanyMetrics) (comps : List CompanyMetrics) :
    (comparable_company_analysis target comps).pe =
      if truthy target.earnings && decide (0 < target.earnings.getD 0) &&
          truthy (median (peRatios comps)) && truthy target.sharesOutstanding then
        some ((median (peRatios comps)).getD 0 * target.earnings.getD 0 /
          target.sharesOutstanding.getD 0)
      else none := rfl

/-- The one-element EV/EBITDA sample of compEv8 has median 8. -/
lemma median_evEbitdaRatios_compEv8 : median (evEbitdaRatios [compEv8]) = some 8 := by
  norm_num [median, evEbitdaRatios, evContrib, truthy, compEv8,
    List.filterMap_cons, List.insertionSort, List.orderedInsert]

/-- The P/E sample of the pair compNegPe, compPosPe has median 0. -/
lemma median_peRatios_negpos : median (peRatios [compNegPe, compPosPe]) = some 0 := by
  norm_num [median, peRatios, peContrib, truthy, compNegPe, compPosPe,
    List.filterMap_cons, List.insertionSort, List.orderedInsert]

/-- Counterexample to C6: with target Ebitda present but equal to 0, the
median EV/EBITDA present (8) and SharesOutstanding present (500000), no
EV/EBITDA fair value is computed, while the claim's formula gives 0. -/
theorem ev_ebitda_zero_ebitda_skipped :
    targetZeroEbitda.ebitda = some 0 ∧
    targetZeroEbitda.sharesOutstanding = some 500000 ∧
    median (evEbitdaRatios [compEv8]) = some 8 ∧
    (comparable_company_analysis targetZeroEbitda [compEv8]).evEbitda = none := by
  refine ⟨rfl, rfl, median_evEbitdaRatios_compEv8, ?_⟩
  rw [analysis_evEbitda]
  simp [targetZeroEbitda, truthy]

/-- Claim C6 (amended): whenever target Ebitda, the median EV/EBITDA and
target SharesOutstanding are all present and non-zero, the EV/EBITDA fair
value equals median times Ebitda divided by SharesOutstanding; and it is
computed only when all three pass the truthiness check. -/
theorem ev_ebitda_fair_value (target : CompanyMetrics) (comps : List CompanyMetrics) :
    (∀ m e s, median (evEbitdaRatios comps) = some m → m ≠ 0 →
        target.ebitda = some e → e ≠ 0 →
        target.sharesOutstanding = some s → s ≠ 0 →
        (comparable_company_analysis target comps).evEbitda = some (m * e / s)) ∧
    ((comparable_company_analysis target comps).evEbitda ≠ none →
        truthy target.ebitda = true ∧ truthy (median (evEbitdaRatios comps)) = true ∧
        truthy target.sharesOutstanding = true) := by
  constructor
  · intro m e s hm hm0 he he0 hs hs0
    rw [analysis_evEbitda, hm, he, hs]
    simp [truthy, hm0, he0, hs0]
  · intro hne
    rw [analysis_evEbitda] at hne
    by_cases hb : (truthy target.ebitda && truthy (median (evEbitdaRatios comps)) &&
        truthy target.sharesOutstanding) = true
    · simp only [Bool.and_eq_true] at hb
      exact ⟨hb.1.1, hb.1.2, hb.2⟩
    · rw [if_neg hb] at hne
      exact absurd rfl hne

/-- Witness for C6's amended claim: median 8, Ebitda 1000000 and
SharesOutstanding 500000 give a fair value per share of 16. -/
theorem ev_ebitda_fair_value_applied :
    (comparable_company_analysis targetEv [compEv8]).evEbitda = some 16 := by
  have h := (ev_ebitda_fair_value targetEv [compEv8]).1 8 1000000 500000
    median_evEbitdaRatios_compEv8 (by norm_num) rfl (by norm_num) rfl (by norm_num)
  rw [h]
  norm_num

/-- Counterexample to C7: with target Earnings 10 > 0, SharesOutstanding
present (5) and the median P/E present (0, from the sample [-1, 1]), the
P/E estimate is the "N/A" sentinel, while the claim's formula gives 0. -/
theorem pe_zero_median_skipped :
    targetPe.earnings = some 10 ∧ targetPe.sharesOutstanding = some 5 ∧
    median (peRatios [compNegPe, compPosPe]) = some 0 ∧
    (comparable_company_analysis targetPe [compNegPe, compPosPe]).pe = none := by
  refine ⟨rfl, rfl, median_peRatios_negpos, ?_⟩
  rw [analysis_pe, median_peRatios_negpos]
  simp [targetPe, truthy]

/-- Claim C7 (amended): the P/E estimate is the "N/A" sentinel whenever
target Earnings is absent or at most 0, regardless of comparable data;
when Earnings is positive and the median P/E and SharesOutstanding are
present and non-zero, it equals median times Earnings divided by
SharesOutstanding. -/
theorem pe_fair_value (target : CompanyMetrics) (comps : List CompanyMetrics) :
    (∀ e, target.earnings = some e → e ≤ 0 →
        (comparable_company_analysis target comps).pe = none) ∧
    (target.earnings = none → (comparable_company_analysis target comps).pe = none) ∧
    (∀ m e s, target.earnings = some e → 0 < e →
        median (peRatios comps) = some m → m ≠ 0 →
        target.sharesOutstanding = some s → s ≠ 0 →
        (comparable_company_analysis target comps).pe = some (m * e / s)) := by
  refine ⟨?_, ?_, ?_⟩
  · intro e he hle
    rw [analysis_pe, he]
    have hb : (truthy (some e) && decide (0 < (some e).getD 0) &&
        truthy (median (peRatios comps)) && truthy target.sharesOutstanding) = false := by
      simp only [Option.getD_some]
      cases hq : decide (0 < e) with
      | false => simp
      | true => exact absurd (of_decide_eq_true hq) (not_lt.mpr hle)
    rw [hb]
    simp
  · intro he
    rw [analysis_pe, he]
    simp [truthy]
  · intro m e s he hpos hm hm0 hs hs0
    rw [analysis_pe, he, hm, hs]
    simp [truthy, hm0, hs0, hpos, ne_of_gt hpos]

/-- Witness for C7's amended claim: negative target Earnings give the
sentinel regardless of comparables. -/
theorem pe_fair_value_applied :
    (comparable_company_analysis targetNegEarnings []).pe = none :=
  (pe_fair_value targetNegEarnings []).1 (-5) rfl (by norm_num)

/-- Counterexample to C8: a description repeating a qualifying word makes
the extraction output contain that token twice, so the output is not a
duplicate-free set. -/
theorem extract_duplicate_tokens :
    (extract_keywords "data data analytics" "XCorp").count "data" = 2 := by decide

/-- Claim C8 (amended): the extraction output is an occurrence-preserving
filter, not a set: a token appears in extract_keywords(D, name) exactly
as often as it appears among the cleaned tokens of D when it passes the
stopword, company-name and length filters, and never otherwise. -/
theorem extract_count_spec (D name w : String) :
    (extract_keywords D name).count w =
      if keepWord name w then (pyTokens D).count w else 0 := by
  unfold extract_keywords
  rw [List.count_eq_countP, List.count_eq_countP, List.countP_filter]
  by_cases h : keepWord name w = true
  · rw [if_pos h]
    congr 1
    funext a
    cases hab : (a == w) with
    | true => simp [eq_of_beq hab, h]
    | false => simp
  · rw [if_neg h]
    rw [List.countP_eq_zero]
    intro a ha hab
    rw [Bool.and_eq_true] at hab
    exact h (eq_of_beq hab.1 ▸ hab.2)

/-- Example rows for the persistence claim. -/
def rowA : ResultRow := ⟨some "KO", some "Current Price", some "62"⟩

/-- Second example row for the persistence claim. -/
def rowB : ResultRow := ⟨some "KO", some "P/E Fair Value", some "55"⟩

/-- Fully empty example row for the persistence claim. -/
def rowNull : ResultRow := ⟨none, none, none⟩

/-- Claim C9: an append leaves the prior store contents unchanged as a
prefix of the result (a missing store behaves as an empty one), and the
fully empty rows of the new batch contribute nothing to the result. -/
theorem append_preserves_prior_rows (existing newData : List ResultRow) :
    (append_to_excel (some existing) newData).take existing.length = existing ∧
    append_to_excel none newData = append_to_excel (some []) newData ∧
    (∀ r ∈ newData, rowEmpty r = true →
        (append_to_excel (some existing) newData).count r = existing.count r) := by
  refine ⟨?_, rfl, ?_⟩
  · unfold append_to_excel
    exact List.take_left existing _
  · intro r hr hre
    unfold append_to_excel
    rw [List.count_append]
    have hz : (newData.filter (fun x => !(rowEmpty x))).count r = 0 := by
      rw [List.count_eq_zero]
      intro hmem
      rw [List.mem_filter, hre] at hmem
      simp at hmem
    rw [hz]
    simp

/-- Witness for C9 at a concrete populated store and a batch holding a
fully empty row. -/
theorem append_preserves_prior_rows_applied :
    (append_to_excel (some [rowA]) [rowNull, rowB]).take ([rowA] : List ResultRow).length
      = [rowA] ∧
    (append_to_excel (some [rowA]) [rowNull, rowB]).count rowNull =
      ([rowA] : List ResultRow).count rowNull :=
  ⟨(append_preserves_prior_rows [rowA] [rowNull, rowB]).1,
   (append_preserves_prior_rows [rowA] [rowNull, rowB]).2.2 rowNull (by decide) (by decide)⟩

/-- Claim C10: the fundamentals checks are truthiness checks: a target
Ebitda of 0 is skipped exactly like an absent Ebitda; a present negative
Ebitda still yields an EV/EBITDA fair value, negative when the median and
shares are positive; and a comparable with Price 0 or MarketCap 0 is
excluded from the P/E or EV/EBITDA sample exactly like a missing field. -/
theorem truthiness_semantics (t met : CompanyMetrics) (comps : List CompanyMetrics) :
    ((comparable_company_analysis (setEbitda t (some 0)) comps).evEbitda = none ∧
     (comparable_company_analysis (setEbitda t (some 0)) comps).evEbitda =
       (comparable_company_analysis (setEbitda t none) comps).evEbitda) ∧
    (∀ q e s, median (evEbitdaRatios comps) = some q → q ≠ 0 →
        t.ebitda = some e → e < 0 → t.sharesOutstanding = some s → s ≠ 0 →
        (comparable_company_analysis t comps).evEbitda = some (q * e / s) ∧
        (0 < q → 0 < s → q * e / s < 0)) ∧
    (met.price = some 0 →
        peContrib met = none ∧ peContrib met = peContrib (setPrice met none)) ∧
    (met.marketCap = some 0 →
        evContrib met = none ∧ evContrib met = evContrib (setMarketCap met none)) := by
  refine ⟨⟨?_, ?_⟩, ?_, ?_, ?_⟩
  · rw [analysis_evEbitda]
    simp [setEbitda, truthy]
  · rw [analysis_evEbitda, analysis_evEbitda]
    simp [setEbitda, truthy]
  · intro q e s hq hq0 he he0 hs hs0
    refine ⟨(ev_ebitda_fair_value t comps).1 q e s hq hq0 he (ne_of_lt he0) hs hs0, ?_⟩
    intro hqpos hspos
    exact div_neg_of_neg_of_pos (mul_neg_of_pos_of_neg hqpos he0) hspos
  · intro hp
    unfold peContrib setPrice
    rw [hp]
    simp [truthy]
  · intro hm
    unfold evContrib setMarketCap
    rw [hm]
    simp [truthy]

/-- Witness for C10: zero target Ebitda skips the EV/EBITDA value, a
negative Ebitda of -2 with median 8 and shares 4 yields the value
8 * -2 / 4, which is negative, and a zero Price excludes a
comparable from the P/E sample. -/
theorem truthiness_semantics_applied :
    (comparable_company_analysis (setEbitda targetNegEbitda (some 0)) [compEv8]).evEbitda
      = none ∧
    (comparable_company_analysis targetNegEbitda [compEv8]).evEbitda =
      some (8 * (-2) / 4) ∧
    (8 : ℚ) * (-2) / 4 < 0 ∧
    peContrib compPriceZero = none := by
  have h := truthiness_semantics targetNegEbitda compPriceZero [compEv8]
  have hb := h.2.1 8 (-2) 4 median_evEbitdaRatios_compEv8 (by norm_num) rfl
    (by norm_num) rfl (by norm_num)
  exact ⟨h.1.1, hb.1, hb.2 (by norm_num) (by norm_num), (h.2.2.1 rfl).1⟩
